import Mathlib

/-
Verification of the content-script scanning pipeline of SpamEmailDetector
(extension/content.js and the background service worker).

The JavaScript source is shallowly embedded: DOM elements are modelled by the
attribute/style/child state the script reads and writes, strings by Lean
strings with JavaScript-faithful trim/split helpers (structural recursion so
the kernel can evaluate them), floats (confidence, threshold) by rationals,
and the asynchronous callback structure by explicit step functions on state.
-/

namespace SpamDetector

/-! ## JavaScript string helpers

JavaScript's `String.prototype.trim`, `split('\n')`, `Array.prototype.join(' ')`
and `String.prototype.includes`, modelled over the character list of a Lean
string so that every definition evaluates by kernel reduction. -/

/-- Model of the JavaScript `trim()`: drop leading and trailing whitespace. -/
def jsTrim (s : String) : String :=
  (((s.data.dropWhile Char.isWhitespace).reverse.dropWhile Char.isWhitespace).reverse).asString

/-- Split a character list at every newline character, as `split('\n')` does:
the empty string yields one empty field, and separators at the ends yield
empty fields. -/
def splitLinesAux : List Char → List (List Char)
  | [] => [[]]
  | c :: rest =>
    match splitLinesAux rest with
    | [] => [[c]]
    | line :: lines =>
      if c = '\n' then [] :: line :: lines
      else (c :: line) :: lines

/-- Model of the JavaScript `text.split('\n')`. -/
def jsSplitLines (s : String) : List String :=
  (splitLinesAux s.data).map List.asString

/-- Model of the JavaScript `parts.join(' ')`. -/
def jsJoinSpace : List String → String
  | [] => ""
  | [t] => t
  | t :: rest => t ++ " " ++ jsJoinSpace rest

/-! ## Service detection (content.js, detectEmailService, lines 25-32)

The JavaScript tests `window.location.hostname.includes('mail.google.com')`
first, then `.includes('outlook')`; `includes` is substring containment,
modelled by list-infix on the character lists. -/

/-- The three host services the content script distinguishes. -/
inductive Service where
  | gmail
  | outlook
  | unknown
deriving Repr, DecidableEq

/-- Embedding of `detectEmailService` (content.js lines 25-32): substring
tests on the page hostname, gmail tested first. -/
def detectEmailService (hostname : String) : Service :=
  if "mail.google.com".data <:+: hostname.data then .gmail
  else if "outlook".data <:+: hostname.data then .outlook
  else .unknown

/-! ## The message element

One row of the host UI, carrying exactly the state content.js reads and
writes on it: the `data-spam-checked` and `data-spam-highlighted` attributes,
the visual treatment `highlightSpam` installs, the count of `.spam-tooltip`
and `.spam-move-button` child nodes, and the text `getEmailText` extracts
from it (extraction is deterministic per element, so the extracted text is
carried as a field). -/

structure DomElement where
  spamChecked : Bool := false
  spamHighlighted : Bool := false
  spamDetected : Bool := false
  spamConfidence : Option ℚ := none
  borderLeft : Option String := none
  backgroundColor : Option String := none
  boxShadow : Option String := none
  tooltipCount : Nat := 0
  moveButtonCount : Nat := 0
  text : String := ""
deriving Repr, DecidableEq

/-! ## Highlighter (content.js, highlightSpam, lines 372-506)

The source returns immediately when the element already has the
`data-spam-highlighted` attribute; otherwise it sets that attribute, the
styles, `data-spam-detected`, `data-spam-confidence`, removes any existing
`.spam-tooltip` and `.spam-move-button` node and appends one container
holding one tooltip and one manual move button. -/

def highlightSpam (element : DomElement) (confidence : ℚ) : DomElement :=
  if element.spamHighlighted then element
  else
    { element with
      spamHighlighted := true
      spamDetected := true
      spamConfidence := some confidence
      borderLeft := some "5px solid #ff0000"
      backgroundColor := some "#ffe5e5"
      boxShadow := some "0 0 5px rgba(255, 0, 0, 0.3)"
      tooltipCount := 1
      moveButtonCount := 1 }

/-! ## Scan loop body (content.js, scanEmails, lines 584-594)

Per element the loop: skips it when `data-spam-checked` is present; extracts
its text and skips it (without marking) when the text is falsy or shorter
than 5 characters; otherwise sets `data-spam-checked` and dispatches one
`predictSpam` message. The whole loop body up to the dispatch is synchronous
(scanEmails contains no await), so one pass is atomic with respect to other
passes. The returned Bool records whether a classification request was
dispatched for the element. -/

def scanEmailsStep (element : DomElement) : DomElement × Bool :=
  if element.spamChecked then (element, false)
  else if element.text.length < 5 then (element, false)
  else ({ element with spamChecked := true }, true)

/-- Iterate scan passes over one element; the second component counts how
many passes dispatched a classification request for it. -/
def scanIter : Nat → DomElement → DomElement × Nat
  | 0, e => (e, 0)
  | n + 1, e =>
    let step := scanEmailsStep e
    let rest := scanIter n step.1
    (rest.1, (if step.2 then 1 else 0) + rest.2)

/-! ## Row discovery (content.js, scanEmails, lines 529-577)

Both branches are a chain of `if (emailElements.length === 0)` retries: the
result of the first `querySelectorAll` that returned a non-empty list is
kept. The query results are supplied by the page fixture as lists of row
identifiers, in the order the selectors appear in the source. -/

/-- First non-empty result set of an ordered list of query results; empty
when every query came back empty. -/
def firstNonEmpty : List (List Nat) → List Nat
  | [] => []
  | q :: rest => if q.length = 0 then firstNonEmpty rest else q

/-- Gmail row discovery (content.js lines 531-539): three selectors tried in
order, each only when the previous returned no elements. -/
def gmailFindRows (q1 q2 q3 : List Nat) : List Nat :=
  let rows := q1
  let rows := if rows.length = 0 then q2 else rows
  let rows := if rows.length = 0 then q3 else rows
  rows

/-- Outlook row discovery (content.js lines 540-569): five direct selectors,
then a query scoped to a main-content area when such an area exists
(`mainArea` is `some` of its query result exactly when
`document.querySelector` found the area), then a last-resort selector. -/
def outlookFindRows (q1 q2 q3 q4 q5 : List Nat) (mainArea : Option (List Nat))
    (q7 : List Nat) : List Nat :=
  let rows := q1
  let rows := if rows.length = 0 then q2 else rows
  let rows := if rows.length = 0 then q3 else rows
  let rows := if rows.length = 0 then q4 else rows
  let rows := if rows.length = 0 then q5 else rows
  let rows := if rows.length = 0 then (match mainArea with
    | some mq => mq
    | none => rows) else rows
  let rows := if rows.length = 0 then q7 else rows
  rows

/-! ## Text extraction, Gmail branch (content.js, getEmailText, lines 60-83)

The selector query results of one Gmail row: `some t` records that the
selector matched an element whose `textContent` is `t`; `none` that it
matched nothing. `fullText` is the row's whole `textContent`. -/

structure GmailRowDom where
  bog : Option String := none
  spanEmail : Option String := none
  bqe : Option String := none
  y2 : Option String := none
  spanColorStyle : Option String := none
  fullText : String := ""
deriving Repr, DecidableEq

/-- First successful query of a JavaScript `a || b || c` chain over
`querySelector` results. -/
def firstSome {α : Type} : List (Option α) → Option α
  | [] => none
  | some a :: _ => some a
  | none :: rest => firstSome rest

/-- Subject string of the Gmail branch: `subjectEl?.textContent?.trim() || ''`
over the chain `.bog || span[email] || .bqe`. -/
def gmailSubjectText (el : GmailRowDom) : String :=
  ((firstSome [el.bog, el.spanEmail, el.bqe]).map jsTrim).getD ""

/-- Snippet string of the Gmail branch: the chain `.y2 || .bqe ||
span[style*=color]`. -/
def gmailSnippetText (el : GmailRowDom) : String :=
  ((firstSome [el.y2, el.bqe, el.spanColorStyle]).map jsTrim).getD ""

/-- Embedding of the Gmail branch of `getEmailText` (content.js lines
60-83 and 133): when both the subject and the snippet came back empty, fall
back to splitting the trimmed full text at newlines, keeping only the lines
whose trimmed length is strictly greater than 3 (`t.trim().length > 3`);
the first kept line becomes the subject, the rest joined by spaces the
snippet; the result is always the trimmed concatenation. -/
def getEmailTextGmail (el : GmailRowDom) : String :=
  let subject := gmailSubjectText el
  let snippet := gmailSnippetText el
  let pair :=
    if subject = "" ∧ snippet = "" then
      let allText := jsTrim el.fullText
      let textParts := (jsSplitLines allText).filter fun t => (jsTrim t).length > 3
      (textParts.getD 0 "", jsJoinSpace (textParts.drop 1))
    else (subject, snippet)
  jsTrim (pair.1 ++ " " ++ pair.2)

/-- A Gmail row fixture on which no subject or snippet selector matches and
whose full text holds a 3-character line followed by a 4-character line. -/
def gmailRowNoSelectors : GmailRowDom := { fullText := "abc\ndefg" }

/-- Modelled from the amended spec words, Gmail branch: when the primary
selectors fail, split the trimmed full text into lines, keep only the lines
whose trimmed length is strictly greater than 3, and return
first-kept-line + " " + rest-joined-by-spaces, trimmed. -/
def specFallbackText (fullText : String) : String :=
  let parts := (jsSplitLines (jsTrim fullText)).filter fun t => (jsTrim t).length > 3
  jsTrim (parts.getD 0 "" ++ " " ++ jsJoinSpace (parts.drop 1))

/-! ## Text extraction, Outlook branch (content.js, getEmailText, lines
84-131)

The Outlook subject chain reads, from the first matching element, the
trimmed `textContent`, falling back to the trimmed `title` property and then
to the trimmed `getAttribute('title')` value; the fallback path additionally
guards on at least one kept line and truncates the subject to 100 and the
snippet to 200 characters via `substring`. -/

/-- Model of the JavaScript `s.substring(0, n)`: the first n characters. -/
def jsSubstringTo (n : Nat) (s : String) : String :=
  (s.data.take n).asString

/-- Model of the JavaScript `a || b` on strings: b exactly when a is the
empty string (falsy). -/
def jsOrElse (a b : String) : String :=
  if a = "" then b else a

/-- An element an Outlook subject selector can return: its `textContent`,
its `title` property and its `title` attribute (the source reads all
three). -/
structure OutlookEl where
  textContent : String := ""
  titleProp : Option String := none
  titleAttr : Option String := none
deriving Repr, DecidableEq

/-- The selector query results of one Outlook row, in source order: eight
subject selectors (content.js lines 87-102, the three groups chain into one
first-non-null order), five snippet selectors (lines 105-112), and the
row's whole `textContent`. -/
structure OutlookRowDom where
  msgSubject : Option OutlookEl := none
  subjectText : Option OutlookEl := none
  spanTitleDataTest : Option OutlookEl := none
  msDetailsRowCellTitle : Option OutlookEl := none
  msFontWeightSemibold : Option OutlookEl := none
  spanTitle : Option OutlookEl := none
  ariaLabelSubject : Option OutlookEl := none
  divTitle : Option OutlookEl := none
  msgPreview : Option String := none
  previewText : Option String := none
  preview : Option String := none
  msFontColorNeutralSecondary : Option String := none
  msFontColorNeutralPrimary : Option String := none
  fullText : String := ""
deriving Repr, DecidableEq

/-- Subject string of the Outlook branch (content.js line 114):
`subjectEl?.textContent?.trim() || subjectEl?.title?.trim() ||
subjectEl?.getAttribute('title')?.trim() || ''` over the eight-selector
chain. -/
def outlookSubjectText (el : OutlookRowDom) : String :=
  match firstSome [el.msgSubject, el.subjectText, el.spanTitleDataTest,
      el.msDetailsRowCellTitle, el.msFontWeightSemibold, el.spanTitle,
      el.ariaLabelSubject, el.divTitle] with
  | none => ""
  | some s =>
    jsOrElse (jsTrim s.textContent)
      (jsOrElse ((s.titleProp.map jsTrim).getD "")
        ((s.titleAttr.map jsTrim).getD ""))

/-- Snippet string of the Outlook branch (content.js line 115):
`snippetEl?.textContent?.trim() || ''` over the five-selector chain. -/
def outlookSnippetText (el : OutlookRowDom) : String :=
  ((firstSome [el.msgPreview, el.previewText, el.preview,
      el.msFontColorNeutralSecondary, el.msFontColorNeutralPrimary]).map
    jsTrim).getD ""

/-- Embedding of the Outlook branch of `getEmailText` (content.js lines
84-131 and 133): when both subject and snippet came back empty, split the
trimmed full text at newlines, keep lines whose trimmed length is strictly
greater than 3, and — only when at least one line is kept — take the first
kept line trimmed and truncated to 100 characters as subject and the rest
joined, trimmed and truncated to 200 characters as snippet; the result is
always the trimmed concatenation. -/
def getEmailTextOutlook (el : OutlookRowDom) : String :=
  let subject := outlookSubjectText el
  let snippet := outlookSnippetText el
  let pair :=
    if subject = "" ∧ snippet = "" then
      let allText := jsTrim el.fullText
      let textParts := (jsSplitLines allText).filter fun t => (jsTrim t).length > 3
      if textParts.length > 0 then
        (jsSubstringTo 100 (jsTrim (textParts.getD 0 "")),
          jsSubstringTo 200 (jsTrim (jsJoinSpace (textParts.drop 1))))
      else (subject, snippet)
    else (subject, snippet)
  jsTrim (pair.1 ++ " " ++ pair.2)

/-- An Outlook row fixture on which no selector matches, with the same full
text as the Gmail fixture. -/
def outlookRowNoSelectors : OutlookRowDom := { fullText := "abc\ndefg" }

/-- Modelled from the amended spec words, Outlook branch: when the primary
selectors fail, split the trimmed full text into lines, keep only the lines
whose trimmed length is strictly greater than 3; with no kept line the
result is empty, otherwise it is (first kept line, trimmed, truncated to
100) + " " + (remaining kept lines joined by spaces, trimmed, truncated to
200), trimmed. -/
def specFallbackTextOutlook (fullText : String) : String :=
  let parts := (jsSplitLines (jsTrim fullText)).filter fun t => (jsTrim t).length > 3
  if parts.length > 0 then
    jsTrim (jsSubstringTo 100 (jsTrim (parts.getD 0 "")) ++ " "
      ++ jsSubstringTo 200 (jsTrim (jsJoinSpace (parts.drop 1))))
  else ""

/-! ## Disposition of a classification response (content.js lines 596-653,
background worker predictSpam)

The background worker answers a `predictSpam` message with `success: true`
and the verdict, or `success: false` with an error string (network failure,
non-2xx response and malformed payload all surface this way); a runtime
messaging error (`chrome.runtime.lastError`) makes the callback return early,
which the failure case also covers. The success handler increments the
persisted `scannedCount`, and when `response.is_spam &&
response.confidence >= confidenceThreshold` it highlights the element,
increments the persisted `spamCount` and, when `autoMoveToSpam` is set,
invokes the action automator. -/

inductive PredictResponse where
  | success (is_spam : Bool) (confidence : ℚ)
  | failure (error : String)
deriving Repr, DecidableEq

/-- The two persisted counters of chrome.storage.sync. -/
structure Stats where
  scannedCount : Nat := 0
  spamCount : Nat := 0
deriving Repr, DecidableEq

/-- State a response callback touches: its own element and the shared
counters. -/
structure DispState where
  element : DomElement := {}
  stats : Stats := {}
deriving Repr, DecidableEq

/-- Embedding of the `predictSpam` response callback (content.js lines
600-649). The second component records whether the action automator was
invoked (the `autoMoveToSpam` branch). A failure is only logged: nothing of
the state changes. The element updates are synchronous in the callback and
faithful as written; the `+ 1` on the stats fields models the single
counter-increment REQUEST the callback issues per branch — the persisted
round trip behind each request is a `chrome.storage.sync.get` → `set`
read-modify-write spanning an asynchronous boundary, modelled separately by
`runSchedule` below, because interleaved callbacks can lose increments
there. -/
def handleResponse (confidenceThreshold : ℚ) (autoMoveToSpam : Bool)
    (st : DispState) (response : PredictResponse) : DispState × Bool :=
  match response with
  | .failure _ => (st, false)
  | .success is_spam confidence =>
    let st1 : DispState :=
      { st with stats := { st.stats with scannedCount := st.stats.scannedCount + 1 } }
    if is_spam && decide (confidenceThreshold ≤ confidence) then
      ({ element := highlightSpam st1.element confidence,
         stats := { st1.stats with spamCount := st1.stats.spamCount + 1 } },
       autoMoveToSpam)
    else
      (st1, false)

/-- The element part of a response disposition, which depends only on the
element and its own response, never on the shared counters or on any other
element. -/
def elementDisposition (confidenceThreshold : ℚ) (element : DomElement)
    (response : PredictResponse) : DomElement :=
  match response with
  | .failure _ => element
  | .success is_spam confidence =>
    if is_spam && decide (confidenceThreshold ≤ confidence) then
      highlightSpam element confidence
    else element

/-- Process the response of every dispatched element of one pass in arrival
order, threading the shared counters through, exactly as the independent
callbacks do on the single-threaded event loop. -/
def processResponses (confidenceThreshold : ℚ) (autoMoveToSpam : Bool) :
    List (DomElement × PredictResponse) → Stats → List DomElement × Stats
  | [], stats => ([], stats)
  | (e, r) :: rest, stats =>
    let step := handleResponse confidenceThreshold autoMoveToSpam
      { element := e, stats := stats } r
    let restOut := processResponses confidenceThreshold autoMoveToSpam rest step.1.stats
    (step.1.element :: restOut.1, restOut.2)

/-! ## Persisted counter round trip (content.js lines 610-614 and 625-629)

Each counter update in the source is
`chrome.storage.sync.get([key], (items) => chrome.storage.sync.set({key:
(items[key] || 0) + 1}))`: a read phase, then — in the get callback, after
an asynchronous suspension — a write phase storing read-value + 1. Each
response callback contributes one such read/write pair per counter it
touches; the storage backend serves the phases of concurrent callbacks in
some interleaved order. The model executes a schedule of phases: a read
records the currently stored value for its callback, a write stores that
callback's recorded value plus one (the `|| 0` default is the initial
stored value). -/

inductive StoragePhase where
  | read (callbackId : Nat)
  | write (callbackId : Nat)
deriving Repr, DecidableEq

/-- The storage backend's state: the stored counter and, per callback, the
value its get returned. -/
structure StorageRun where
  stored : Nat := 0
  reads : List (Nat × Nat) := []
deriving Repr, DecidableEq

/-- Execute a schedule of read/write phases against the stored counter. A
write whose callback never read is a no-op (it cannot arise: the source
issues the set only inside the get callback). -/
def runSchedule : List StoragePhase → StorageRun → StorageRun
  | [], st => st
  | .read id :: rest, st =>
    runSchedule rest { st with reads := (id, st.stored) :: st.reads }
  | .write id :: rest, st =>
    match st.reads.lookup id with
    | some r => runSchedule rest { st with stored := r + 1 }
    | none => runSchedule rest st

/-! ## Action automator (content.js, moveEmailToSpam, lines 144-365)

The function initialises `let moved = false`, runs a synchronous prologue
(stage 1: `element.click()`, for Outlook also `element.focus()`), schedules
the remaining stages with `setTimeout`, and ends with `return moved`. Every
`moved = true` assignment in the source sits inside a timer callback; on the
single-threaded event loop no timer callback runs before the synchronous
body returns, so the embedding records the synchronous action sequence and
computes the returned value from it. -/

inductive SyncAction where
  | domEvent (name : String)
  | scheduleTimer (delayMs : Nat)
  | assignMoved (value : Bool)
deriving Repr, DecidableEq

/-- Value of the `moved` flag after running a synchronous action sequence. -/
def movedAfter : Bool → List SyncAction → Bool
  | moved, [] => moved
  | _, .assignMoved b :: rest => movedAfter b rest
  | moved, .domEvent _ :: rest => movedAfter moved rest
  | moved, .scheduleTimer _ :: rest => movedAfter moved rest

/-- The synchronous body of `moveEmailToSpam` up to its `return`: Gmail
(lines 150-204) clicks the row and schedules the escalation at 100ms;
Outlook (lines 206-361) clicks, focuses and schedules at 100ms; any other
service falls through both branches. No branch assigns `moved`
synchronously. -/
def moveEmailToSpamSyncBody : Service → List SyncAction
  | .gmail => [.domEvent "click", .scheduleTimer 100]
  | .outlook => [.domEvent "click", .domEvent "focus", .scheduleTimer 100]
  | .unknown => []

/-- The value `moveEmailToSpam` returns: the `moved` flag, initialised
false, after the synchronous body. -/
def moveEmailToSpam (service : Service) : Bool :=
  movedAfter false (moveEmailToSpamSyncBody service)

/-! ## Helper lemmas -/

/-- A query chain step folds into the head of the pending query list. -/
theorem firstNonEmpty_step_absorb (acc q : List Nat) (rest : List (List Nat)) :
    firstNonEmpty ((if acc.length = 0 then q else acc) :: rest)
      = firstNonEmpty (acc :: q :: rest) := by
  by_cases h : acc.length = 0
  · have h0 : acc = [] := List.length_eq_zero.mp h
    subst h0
    simp [firstNonEmpty]
  · simp [firstNonEmpty, h]

/-- The final query chain step is the two-query first-non-empty. -/
theorem firstNonEmpty_last_absorb (l q : List Nat) :
    (if l.length = 0 then q else l) = firstNonEmpty [l, q] := by
  by_cases hl : l.length = 0
  · by_cases hq : q.length = 0
    · have hq0 : q = [] := List.length_eq_zero.mp hq
      subst hq0
      simp [firstNonEmpty, hl]
    · simp [firstNonEmpty, hl, hq]
  · simp [firstNonEmpty, hl]

/-- When every query result before position N is empty and the one at N is
not, the chain yields exactly the result at N. -/
theorem firstNonEmpty_eq_getD :
    ∀ (qs : List (List Nat)) (N : Nat), N < qs.length →
      (∀ i, i < N → qs.getD i [] = []) → qs.getD N [] ≠ [] →
      firstNonEmpty qs = qs.getD N []
  | [], N, hlen, _, _ => absurd hlen (by simp)
  | q :: rest, 0, _, _, hN => by
    have h : ¬ q.length = 0 := by
      simpa [List.length_eq_zero] using hN
    simp [firstNonEmpty, h]
  | q :: rest, N + 1, hlen, hbefore, hN => by
    have hq : q = [] := by
      simpa using hbefore 0 (Nat.succ_pos N)
    subst hq
    have ih := firstNonEmpty_eq_getD rest N (by simpa using hlen)
      (fun i hi => by simpa using hbefore (i + 1) (Nat.succ_lt_succ hi))
      (by simpa using hN)
    simpa [firstNonEmpty] using ih

/-- Highlighting always leaves the highlighted marker set. -/
theorem highlightSpam_spamHighlighted (e : DomElement) (c : ℚ) :
    (highlightSpam e c).spamHighlighted = true := by
  unfold highlightSpam
  split
  · assumption
  · rfl

/-- Highlighting an already-highlighted element changes nothing. -/
theorem highlightSpam_already (e : DomElement) (c : ℚ)
    (h : e.spamHighlighted = true) : highlightSpam e c = e := by
  simp [highlightSpam, h]

/-- Highlighting twice equals highlighting once. -/
theorem highlightSpam_idem (e : DomElement) (c c2 : ℚ) :
    highlightSpam (highlightSpam e c) c2 = highlightSpam e c :=
  highlightSpam_already _ _ (highlightSpam_spamHighlighted e c)

/-- An already-checked element is skipped entirely by the scan loop body. -/
theorem scanEmailsStep_checked (e : DomElement) (h : e.spamChecked = true) :
    scanEmailsStep e = (e, false) := by
  simp [scanEmailsStep, h]

/-- Scan passes never touch an already-checked element, however many run. -/
theorem scanIter_checked (n : Nat) (e : DomElement) (h : e.spamChecked = true) :
    scanIter n e = (e, 0) := by
  induction n with
  | zero => rfl
  | succ n ih => simp [scanIter, scanEmailsStep_checked e h, ih]

/-- A dispatch in the scan loop body sets the checked marker in the same
synchronous step. -/
theorem scanEmailsStep_dispatch (e : DomElement) :
    (scanEmailsStep e).2 = true → (scanEmailsStep e).1.spamChecked = true := by
  by_cases h1 : e.spamChecked = true <;>
    by_cases h2 : e.text.length < 5 <;>
    simp [scanEmailsStep, h1, h2]

/-- Over any number of scan passes one element dispatches at most one
classification request. -/
theorem scanIter_le_one (n : Nat) : ∀ el : DomElement, (scanIter n el).2 ≤ 1 := by
  induction n with
  | zero => intro el; simp [scanIter]
  | succ n ih =>
    intro el
    simp only [scanIter]
    cases hd : (scanEmailsStep el).2 with
    | false => simpa [hd] using ih (scanEmailsStep el).1
    | true =>
      have hchecked := scanEmailsStep_dispatch el hd
      simp [hd, scanIter_checked n _ hchecked]

/-- The element part of a response disposition ignores the shared
counters. -/
theorem handleResponse_element (thr : ℚ) (auto : Bool) (e : DomElement)
    (s : Stats) (r : PredictResponse) :
    (handleResponse thr auto { element := e, stats := s } r).1.element
      = elementDisposition thr e r := by
  cases r with
  | failure err => rfl
  | success sp conf =>
    by_cases hb : (sp && decide (thr ≤ conf)) = true <;>
      simp [handleResponse, elementDisposition, hb]

section Claims

/-! ## The claims -/

/-- C10: host detection depends only on the hostname and classifies by
substring containment, gmail tested first: a hostname containing
"mail.google.com" yields gmail; any other hostname containing "outlook"
anywhere (including non-Microsoft domains such as "outlook.attacker.example")
yields outlook; everything else yields unknown. -/
theorem detectEmailService_substring_containment (hostname : String) :
    (detectEmailService hostname = .gmail ↔
      "mail.google.com".data <:+: hostname.data) ∧
    (detectEmailService hostname = .outlook ↔
      (¬ "mail.google.com".data <:+: hostname.data ∧
        "outlook".data <:+: hostname.data)) ∧
    (detectEmailService hostname = .unknown ↔
      (¬ "mail.google.com".data <:+: hostname.data ∧
        ¬ "outlook".data <:+: hostname.data)) ∧
    detectEmailService "outlook.attacker.example" = .outlook ∧
    detectEmailService "mail.google.com" = .gmail ∧
    detectEmailService "www.example.com" = .unknown := by
  refine ⟨?_, ?_, ?_, by decide, by decide, by decide⟩ <;>
  · by_cases h1 : "mail.google.com".data <:+: hostname.data <;>
      by_cases h2 : "outlook".data <:+: hostname.data <;>
      simp [detectEmailService, h1, h2]

/-- C8 (code bug in the source): the claim says `moveEmailToSpam` returns a
true "attempted" boolean immediately after dispatching stage 1. The source
does dispatch stage 1 (the click) synchronously and does return without
blocking, but the returned flag `moved` is only ever assigned true inside
`setTimeout` callbacks, which cannot run before the synchronous body
returns; so the function returns false on every invocation, contradicting
its own doc comment ("@returns ... True if move was attempted"). -/
theorem moveEmailToSpam_always_returns_false :
    (SyncAction.domEvent "click" ∈ moveEmailToSpamSyncBody .gmail) ∧
    (SyncAction.domEvent "click" ∈ moveEmailToSpamSyncBody .outlook) ∧
    (∀ a ∈ moveEmailToSpamSyncBody .gmail, ∀ b, a ≠ .assignMoved b) ∧
    (∀ a ∈ moveEmailToSpamSyncBody .outlook, ∀ b, a ≠ .assignMoved b) ∧
    (∀ service, moveEmailToSpam service = false) := by
  refine ⟨by decide, by decide, by decide, by decide, ?_⟩
  intro service
  cases service <;> rfl

/-- C6: row discovery tries the host profile's row selectors in a fixed
order and stops at the first selector returning a non-empty result set,
taking that result alone (never a union); when every query result before
position N is empty and the one at N is not, the rows found are exactly the
result at N. Both the Gmail and the Outlook discovery chain of scanEmails
equal the first-non-empty fold of their ordered query results. -/
theorem scanEmails_row_discovery (qs : List (List Nat)) (N : Nat)
    (hlen : N < qs.length)
    (hbefore : ∀ i, i < N → qs.getD i [] = [])
    (hN : qs.getD N [] ≠ []) :
    firstNonEmpty qs = qs.getD N [] ∧
    (∀ q1 q2 q3 : List Nat, gmailFindRows q1 q2 q3 = firstNonEmpty [q1, q2, q3]) ∧
    (∀ q1 q2 q3 q4 q5 mq q7 : List Nat,
      outlookFindRows q1 q2 q3 q4 q5 (some mq) q7
        = firstNonEmpty [q1, q2, q3, q4, q5, mq, q7]) ∧
    (∀ q1 q2 q3 q4 q5 q7 : List Nat,
      outlookFindRows q1 q2 q3 q4 q5 none q7
        = firstNonEmpty [q1, q2, q3, q4, q5, q7]) := by
  refine ⟨firstNonEmpty_eq_getD qs N hlen hbefore hN, ?_, ?_, ?_⟩
  · intro q1 q2 q3
    simp only [gmailFindRows]
    rw [firstNonEmpty_last_absorb, firstNonEmpty_step_absorb]
  · intro q1 q2 q3 q4 q5 mq q7
    simp only [outlookFindRows]
    rw [firstNonEmpty_last_absorb, firstNonEmpty_step_absorb,
      firstNonEmpty_step_absorb, firstNonEmpty_step_absorb,
      firstNonEmpty_step_absorb, firstNonEmpty_step_absorb]
  · intro q1 q2 q3 q4 q5 q7
    simp only [outlookFindRows]
    rw [ite_self, firstNonEmpty_last_absorb, firstNonEmpty_step_absorb,
      firstNonEmpty_step_absorb, firstNonEmpty_step_absorb,
      firstNonEmpty_step_absorb]

/-- Witness for C6 at a concrete fixture: only the third Gmail selector
variant matches, and discovery returns exactly its rows. -/
theorem scanEmails_row_discovery_witness :
    firstNonEmpty [[], [], [7, 8]] = [7, 8] ∧
    gmailFindRows [] [] [7, 8] = firstNonEmpty [[], [], [7, 8]] :=
  ⟨(scanEmails_row_discovery [[], [], [7, 8]] 2 (by decide)
      (by decide) (by decide)).1,
    (scanEmails_row_discovery [[], [], [7, 8]] 2 (by decide)
      (by decide) (by decide)).2.1 [] [] [7, 8]⟩

/-- C1: the visual spam highlight is applied exactly when the verdict has
isSpam true and confidence at least the configured threshold (inclusive:
confidence equal to the threshold triggers it, shown by the second conjunct
on a fresh element at exactly the threshold), and at most once per element:
re-running the disposition with the same verdict leaves the element
unchanged. -/
theorem dispose_highlight_iff_threshold (thr conf : ℚ) (auto sp : Bool)
    (st : DispState) :
    ((handleResponse thr auto st (.success sp conf)).1.element.spamHighlighted
      = (st.element.spamHighlighted || (sp && decide (thr ≤ conf)))) ∧
    ((handleResponse thr auto { element := {}, stats := st.stats }
        (.success true thr)).1.element.spamHighlighted = true) ∧
    ((handleResponse thr auto (handleResponse thr auto st (.success sp conf)).1
        (.success sp conf)).1.element
      = (handleResponse thr auto st (.success sp conf)).1.element) := by
  refine ⟨?_, ?_, ?_⟩
  · cases hb : (sp && decide (thr ≤ conf)) <;>
      simp [handleResponse, hb, highlightSpam_spamHighlighted]
  · simp [handleResponse, highlightSpam_spamHighlighted]
  · cases hb : (sp && decide (thr ≤ conf)) <;>
      simp [handleResponse, hb, highlightSpam_already, highlightSpam_idem,
        highlightSpam_spamHighlighted]

/-- C2: the checked marker is set at most once per page lifetime and a
classification request is dispatched at most once per element: an
already-marked element is skipped entirely (unchanged, no dispatch), a
dispatch happens exactly when the element is unmarked with text of length at
least 5, the marker is set in the same synchronous step as the dispatch, and
over any number of (possibly overlapping, event-loop-serialised) scan passes
the total number of dispatches for one element is at most one. -/
theorem scanEmails_checked_once (el : DomElement) (n : Nat) :
    ((scanIter n el).2 ≤ 1) ∧
    (scanEmailsStep { el with spamChecked := true }
      = ({ el with spamChecked := true }, false)) ∧
    ((scanEmailsStep el).2 = (!el.spamChecked && decide (5 ≤ el.text.length))) ∧
    ((scanEmailsStep el).1.spamChecked = (el.spamChecked || (scanEmailsStep el).2)) := by
  refine ⟨scanIter_le_one n el, scanEmailsStep_checked _ rfl, ?_, ?_⟩ <;>
    · by_cases h1 : el.spamChecked = true <;>
        by_cases h2 : el.text.length < 5 <;>
        simp [scanEmailsStep, h1, h2, Nat.not_lt, Nat.lt_iff_add_one_le] <;>
        omega

/-- Concrete counterexample to C3 as stated: a fresh element whose extracted
text "abcd" has length 4 (below the minimum 5) is skipped WITHOUT the
checked marker being set — the source `continue`s before the
`setAttribute('data-spam-checked', ...)` line — so short rows are
re-extracted on every subsequent pass, contrary to the claim. -/
theorem scanEmails_short_text_not_marked :
    ({ text := "abcd" } : DomElement).spamChecked = false ∧
    ({ text := "abcd" } : DomElement).text.length < 5 ∧
    (scanEmailsStep { text := "abcd" }).1.spamChecked = false ∧
    (scanEmailsStep { text := "abcd" }).2 = false ∧
    scanEmailsStep { text := "abcd" } = ({ text := "abcd" }, false) := by
  decide

/-- C3 as amended: the checked marker is NOT set when the combined extracted
text has length below 5 — such an element is skipped unmarked and unchanged
(not classified, not an error) and will be re-extracted on every subsequent
scan pass; the marker is set, together with the classification dispatch,
exactly when extraction yields text of length at least 5. -/
theorem scanEmails_checked_requires_min_length (el : DomElement)
    (h : el.spamChecked = false) :
    (el.text.length < 5 → scanEmailsStep el = (el, false)) ∧
    (5 ≤ el.text.length →
      scanEmailsStep el = ({ el with spamChecked := true }, true)) := by
  refine ⟨fun ht => ?_, fun ht => ?_⟩
  · simp [scanEmailsStep, h, ht]
  · have ht2 : ¬ el.text.length < 5 := Nat.not_lt.mpr ht
    simp [scanEmailsStep, h, ht2]

/-- Witness for the amended C3 at two concrete elements: a 4-character row
stays unmarked, a 10-character row is marked and dispatched. -/
theorem scanEmails_checked_requires_min_length_witness :
    scanEmailsStep { text := "abcd" } = ({ text := "abcd" }, false) ∧
    scanEmailsStep { text := "hello spam" }
      = ({ text := "hello spam", spamChecked := true }, true) :=
  ⟨(scanEmails_checked_requires_min_length { text := "abcd" } rfl).1 (by decide),
    (scanEmails_checked_requires_min_length { text := "hello spam" } rfl).2
      (by decide)⟩

/-- C4 (code bug in the source): the response callback does issue exactly
one scannedCount increment request per completed classification, whatever
the verdict, and none on a failure (so duplicates and already-checked
elements, which never dispatch, are never counted) — but each persisted
increment is a `chrome.storage.sync.get` → `set` read-modify-write spanning
an asynchronous boundary (content.js lines 610-614; lines 625-629 for
spamCount). Served sequentially, two completed elements advance the stored
counter from v to v + 2; when both reads are served before either write —
the arrival pattern of two back-to-back response callbacks after a
multi-element pass — both read the same stale value and the counter reaches
only v + 1: an increment is lost, so the code does not guarantee the
claimed "increases by exactly 1" per element, though the spec clearly
intends exactly-once counting. -/
theorem storage_counter_increment_lost (v : Nat) :
    ((runSchedule [.read 1, .write 1, .read 2, .write 2]
        { stored := v }).stored = v + 2) ∧
    ((runSchedule [.read 1, .read 2, .write 1, .write 2]
        { stored := v }).stored = v + 1) ∧
    (∀ (thr conf : ℚ) (auto sp : Bool) (st : DispState),
      (handleResponse thr auto st (.success sp conf)).1.stats.scannedCount
        = st.stats.scannedCount + 1) ∧
    (∀ (thr : ℚ) (auto : Bool) (st : DispState) (err : String),
      (handleResponse thr auto st (.failure err)).1.stats = st.stats) := by
  refine ⟨rfl, rfl, ?_, ?_⟩
  · intro thr conf auto sp st
    cases hb : (sp && decide (thr ≤ conf)) <;> simp [handleResponse, hb]
  · intro thr auto st err
    rfl

/-- C5: a failed classification (network failure, non-2xx, malformed
payload, or a messaging error, all surfaced as an unsuccessful response) is
only logged: the element is left exactly as it was (still carrying its
checked marker, never highlighted), the counters do not move, the automator
is not invoked; and a whole pass of response callbacks treats every element
independently — each element's final state is a function of its own response
alone, so one failure aborts nothing. -/
theorem serviceError_isolated (thr : ℚ) (auto : Bool) (st : DispState)
    (err : String) :
    (handleResponse thr auto st (.failure err) = (st, false)) ∧
    (elementDisposition thr st.element (.failure err) = st.element) ∧
    (scanEmailsStep { st.element with spamChecked := true }
      = ({ st.element with spamChecked := true }, false)) ∧
    (∀ (pairs : List (DomElement × PredictResponse)) (stats : Stats),
      (processResponses thr auto pairs stats).1
        = pairs.map fun p => elementDisposition thr p.1 p.2) := by
  refine ⟨rfl, rfl, scanEmailsStep_checked _ rfl, ?_⟩
  intro pairs
  induction pairs with
  | nil => intro stats; rfl
  | cons p rest ih =>
    intro stats
    obtain ⟨e, r⟩ := p
    simp only [processResponses, List.map, handleResponse_element, ih]

/-- C7: the highlight operation is idempotent — an element already carrying
the highlighted marker is returned unchanged (no duplicate overlay, style or
button), highlighting twice equals highlighting once, and a first invocation
sets the marker, records the numeric confidence, and renders exactly one
tooltip and one manual move-to-spam control. -/
theorem highlightSpam_idempotent (e : DomElement) (c c2 : ℚ) :
    (highlightSpam { e with spamHighlighted := true } c
      = { e with spamHighlighted := true }) ∧
    (highlightSpam (highlightSpam e c) c2 = highlightSpam e c) ∧
    ((highlightSpam { e with spamHighlighted := false } c).spamHighlighted = true) ∧
    ((highlightSpam { e with spamHighlighted := false } c).spamConfidence = some c) ∧
    ((highlightSpam { e with spamHighlighted := false } c).tooltipCount = 1) ∧
    ((highlightSpam { e with spamHighlighted := false } c).moveButtonCount = 1) := by
  refine ⟨highlightSpam_already _ _ rfl, highlightSpam_idem e c c2, ?_, ?_, ?_, ?_⟩ <;>
    simp [highlightSpam]

/-- Concrete counterexample to C9 as stated: with both selector routes
empty, the fallback filter is `t.trim().length > 3` (strict), so the line
"abc" of exactly 3 characters is DISCARDED, not kept — the extraction
returns "defg", not the "abc defg" the claim predicts. -/
theorem getEmailText_three_char_line_dropped :
    gmailSubjectText gmailRowNoSelectors = "" ∧
    gmailSnippetText gmailRowNoSelectors = "" ∧
    getEmailTextGmail gmailRowNoSelectors = "defg" ∧
    getEmailTextGmail gmailRowNoSelectors ≠ "abc defg" := by
  decide

/-- C9 as amended: for every element of either service whose primary
subject and snippet routes both yield empty text, extraction falls back to
splitting the element's trimmed full text content into lines and discarding
every line whose trimmed length is at most 3 (the comparison is strict: a
line of exactly 3 characters is discarded). On Gmail the result is the
first kept line + " " + the remaining kept lines joined by spaces, trimmed;
on Outlook, only when at least one line is kept, the subject is the first
kept line trimmed and truncated to 100 characters and the snippet the
remaining kept lines joined, trimmed and truncated to 200 characters,
concatenated with a space and trimmed — with no kept line the Outlook
result is empty. -/
theorem getEmailText_fallback (elG : GmailRowDom) (elO : OutlookRowDom)
    (hs : gmailSubjectText elG = "") (hn : gmailSnippetText elG = "")
    (hos : outlookSubjectText elO = "") (hon : outlookSnippetText elO = "") :
    getEmailTextGmail elG = specFallbackText elG.fullText ∧
    getEmailTextOutlook elO = specFallbackTextOutlook elO.fullText ∧
    (∀ t ∈ (jsSplitLines (jsTrim elG.fullText)).filter
        (fun t => (jsTrim t).length > 3), 4 ≤ (jsTrim t).length) ∧
    (∀ t, (jsTrim t).length = 3 →
      t ∉ (jsSplitLines (jsTrim elO.fullText)).filter
        (fun t => (jsTrim t).length > 3)) := by
  refine ⟨?_, ?_, ?_, ?_⟩
  · simp [getEmailTextGmail, specFallbackText, hs, hn]
  · by_cases hp : ((jsSplitLines (jsTrim elO.fullText)).filter
        (fun t => (jsTrim t).length > 3)).length > 0
    · simp [getEmailTextOutlook, specFallbackTextOutlook, hos, hon, hp]
    · simp only [getEmailTextOutlook, specFallbackTextOutlook, hos, hon,
        if_pos (And.intro rfl rfl), if_neg hp]
      rfl
  · intro t ht
    have := (List.mem_filter.mp ht).2
    simp only [decide_eq_true_eq] at this
    omega
  · intro t h3 hmem
    have := (List.mem_filter.mp hmem).2
    simp only [decide_eq_true_eq] at this
    omega

/-- Witness for the amended C9 at concrete fixtures of both services: the
fallback formulas are what extraction returns there. -/
theorem getEmailText_fallback_witness :
    getEmailTextGmail gmailRowNoSelectors
      = specFallbackText gmailRowNoSelectors.fullText ∧
    getEmailTextOutlook outlookRowNoSelectors
      = specFallbackTextOutlook outlookRowNoSelectors.fullText :=
  ⟨(getEmailText_fallback gmailRowNoSelectors outlookRowNoSelectors
      (by decide) (by decide) (by decide) (by decide)).1,
    (getEmailText_fallback gmailRowNoSelectors outlookRowNoSelectors
      (by decide) (by decide) (by decide) (by decide)).2.1⟩

end Claims

end SpamDetector
